import Mathlib

/-!
# Verification of the AutoMem deploy webhook and Gemini embedding provider

A shallow embedding of `scripts/deploy-webhook.py` (request authentication,
action dispatch, subprocess invocation and response mapping) and of
`automem/embedding/gemini.py` (embedding generation and dimension checks),
with theorems settling the specified behaviour.

Bytes are modelled as `Nat` below 256; Python `str` values as Lean `String`
or `List Char`.  `hashlib.sha256` and `hmac.new(..).hexdigest()` are
implemented concretely so that signatures evaluate.
-/

namespace Automem

/-! ## SHA-256 (`hashlib.sha256`) over byte lists -/

/-- Truncate to a 32-bit word, as all SHA-256 arithmetic is mod 2^32. -/
def w32 (n : Nat) : Nat := n % 4294967296

/-- Right rotation of a 32-bit word by `n` bits. -/
def rotr (n x : Nat) : Nat := (x >>> n) ||| (w32 (x <<< (32 - n)))

/-- SHA-256 `Ch` function. -/
def ch (x y z : Nat) : Nat := (x &&& y) ^^^ ((x ^^^ 4294967295) &&& z)

/-- SHA-256 `Maj` function. -/
def maj (x y z : Nat) : Nat := (x &&& y) ^^^ (x &&& z) ^^^ (y &&& z)

/-- SHA-256 big Σ₀. -/
def bsig0 (x : Nat) : Nat := rotr 2 x ^^^ rotr 13 x ^^^ rotr 22 x

/-- SHA-256 big Σ₁. -/
def bsig1 (x : Nat) : Nat := rotr 6 x ^^^ rotr 11 x ^^^ rotr 25 x

/-- SHA-256 small σ₀. -/
def ssig0 (x : Nat) : Nat := rotr 7 x ^^^ rotr 18 x ^^^ (x >>> 3)

/-- SHA-256 small σ₁. -/
def ssig1 (x : Nat) : Nat := rotr 17 x ^^^ rotr 19 x ^^^ (x >>> 10)

/-- The 64 SHA-256 round constants, written in decimal. -/
def shaK : List Nat :=
  [1116352408, 1899447441, 3049323471, 3921009573, 961987163,
   1508970993, 2453635748, 2870763221, 3624381080, 310598401,
   607225278, 1426881987, 1925078388, 2162078206, 2614888103,
   3248222580, 3835390401, 4022224774, 264347078, 604807628,
   770255983, 1249150122, 1555081692, 1996064986, 2554220882,
   2821834349, 2952996808, 3210313671, 3336571891, 3584528711,
   113926993, 338241895, 666307205, 773529912, 1294757372,
   1396182291, 1695183700, 1986661051, 2177026350, 2456956037,
   2730485921, 2820302411, 3259730800, 3345764771, 3516065817,
   3600352804, 4094571909, 275423344, 430227734, 506948616,
   659060556, 883997877, 958139571, 1322822218, 1537002063,
   1747873779, 1955562222, 2024104815, 2227730452, 2361852424,
   2428436474, 2756734187, 3204031479, 3329325298]

/-- The eight initial SHA-256 state words, written in decimal. -/
def shaH0 : List Nat :=
  [1779033703, 3144134277, 1013904242, 2773480762,
   1359893119, 2600822924, 528734635, 1541459225]

/-- Extend a 16-word block to the 64-word message schedule. -/
def msgSchedule (block : List Nat) : List Nat :=
  (List.range 48).foldl
    (fun ws _ =>
      ws ++ [w32 (ssig1 (ws.getD (ws.length - 2) 0) + ws.getD (ws.length - 7) 0 +
                  ssig0 (ws.getD (ws.length - 15) 0) + ws.getD (ws.length - 16) 0)])
    block

/-- One SHA-256 round on the eight-word working state. -/
def shaRound (st : List Nat) (kw : Nat × Nat) : List Nat :=
  match st with
  | [a, b, c, d, e, f, g, h] =>
      let t1 := w32 (h + bsig1 e + ch e f g + kw.1 + kw.2)
      let t2 := w32 (bsig0 a + maj a b c)
      [w32 (t1 + t2), a, b, c, w32 (d + t1), e, f, g]
  | other => other

/-- The SHA-256 compression function: absorb one 16-word block. -/
def shaCompress (h : List Nat) (block : List Nat) : List Nat :=
  let final := (List.zip shaK (msgSchedule block)).foldl shaRound h
  List.zipWith (fun x y => w32 (x + y)) h final

/-- An eight-byte big-endian encoding of `n` (the padded bit length). -/
def be8 (n : Nat) : List Nat :=
  [(n >>> 56) &&& 255, (n >>> 48) &&& 255, (n >>> 40) &&& 255, (n >>> 32) &&& 255,
   (n >>> 24) &&& 255, (n >>> 16) &&& 255, (n >>> 8) &&& 255, n &&& 255]

/-- SHA-256 message padding: `0x80`, zeros, then the 64-bit bit length. -/
def padMessage (msg : List Nat) : List Nat :=
  msg ++ [128] ++ List.replicate ((119 - msg.length % 64) % 64) 0 ++ be8 (8 * msg.length)

/-- Pack four bytes into one big-endian 32-bit word each, over the list. -/
def bytesToWords : List Nat → List Nat
  | b0 :: b1 :: b2 :: b3 :: rest =>
      (b0 <<< 24 ||| b1 <<< 16 ||| b2 <<< 8 ||| b3) :: bytesToWords rest
  | _ => []

/-- Split the four bytes of a 32-bit word, big-endian. -/
def wordToBytes (w : Nat) : List Nat :=
  [(w >>> 24) &&& 255, (w >>> 16) &&& 255, (w >>> 8) &&& 255, w &&& 255]

/-- SHA-256 of a byte list, as the 32 digest bytes. -/
def sha256 (msg : List Nat) : List Nat :=
  let p := padMessage msg
  let final := (List.range (p.length / 64)).foldl
    (fun h i => shaCompress h (bytesToWords ((p.drop (64 * i)).take 64))) shaH0
  (final.map wordToBytes).flatten

/-! ## HMAC-SHA256 (`hmac.new(key, msg, hashlib.sha256)`) -/

/-- HMAC-SHA256 of a message under a key, as the 32 digest bytes. -/
def hmacSha256 (key msg : List Nat) : List Nat :=
  let k0 := if key.length > 64 then sha256 key else key
  let kpad := k0 ++ List.replicate (64 - k0.length) 0
  sha256 ((kpad.map (fun b => b ^^^ 92)) ++ sha256 ((kpad.map (fun b => b ^^^ 54)) ++ msg))

/-- Lowercase hex digit for a value below 16. -/
def hexDigit (n : Nat) : Char :=
  if n < 10 then Char.ofNat (48 + n) else Char.ofNat (87 + n)

/-- Lowercase hex string of a byte list (`.hexdigest()`). -/
def toHex (l : List Nat) : String :=
  String.mk ((l.map (fun b => [hexDigit (b / 16), hexDigit (b % 16)])).flatten)

/-- UTF-8 encoding of one code point. -/
def utf8Char (c : Nat) : List Nat :=
  if c < 128 then [c]
  else if c < 2048 then [192 ||| (c >>> 6), 128 ||| (c &&& 63)]
  else if c < 65536 then
    [224 ||| (c >>> 12), 128 ||| ((c >>> 6) &&& 63), 128 ||| (c &&& 63)]
  else
    [240 ||| (c >>> 18), 128 ||| ((c >>> 12) &&& 63),
     128 ||| ((c >>> 6) &&& 63), 128 ||| (c &&& 63)]

/-- UTF-8 bytes of a string (Python `str.encode()`). -/
def strBytes (s : String) : List Nat :=
  (s.data.map (fun c => utf8Char c.toNat)).flatten

/-! ## The webhook receiver (`scripts/deploy-webhook.py`) -/

/-- Python truthiness `a or b` on the two header lookups of line 62: an
absent or empty `X-Webhook-Secret` value falls through to
`X-Hub-Signature-256`. -/
def pyOrHeader (a b : Option String) : Option String :=
  match a with
  | some s => if s = "" then b else some s
  | none => b

/-- `WEBHOOK_SECRET = os.getenv("WEBHOOK_SECRET", "automem-deploy-secret")`
(line 27): an unset environment variable yields the default string, a set
one (even the empty string) yields its value. -/
def webhookSecretOf (env : Option String) : String :=
  env.getD "automem-deploy-secret"

/-- The expected signature string of line 48:
`"sha256=" + hmac.new(secret.encode(), payload, hashlib.sha256).hexdigest()`. -/
def expectedSignature (secret : String) (payload : List Nat) : String :=
  "sha256=" ++ toHex (hmacSha256 (strBytes secret) payload)

/-- Whether every character of a string is ASCII (code point below 128). -/
def isAsciiStr (s : String) : Bool := s.data.all (fun c => c.toNat < 128)

/-- `hmac.compare_digest` on two `str` operands: when both are ASCII it is
a constant-time comparison, functionally string equality; when either
operand contains a non-ASCII character CPython raises
`TypeError: comparing strings with non-ASCII characters is not supported`.
Header values are iso-8859-1-decoded, so non-ASCII operands are
reachable. -/
def compare_digest (a b : String) : Except String Bool :=
  if isAsciiStr a && isAsciiStr b then .ok (a = b) else .error "TypeError"

/-- `verify_signature(payload, signature, secret)` (lines 44-49): an absent
or empty signature fails at `if not signature`; otherwise
`hmac.compare_digest(expected, signature)`, whose `TypeError` on a
non-ASCII operand propagates out of the function. -/
def verify_signature (payload : List Nat) (signature : Option String) (secret : String) :
    Except String Bool :=
  match signature with
  | none => .ok false
  | some s =>
      if s = "" then .ok false
      else compare_digest (expectedSignature secret payload) s

/-- The authorization decision of `do_POST` lines 62-68: authorized unless
the secret is non-empty, the chosen header value fails `verify_signature`,
and the `X-Webhook-Secret` header is not exactly the secret.  An exception
raised inside `verify_signature` propagates (there is no `try` around the
authentication block). -/
def authorized (secret : String) (secretHdr sigHdr : Option String) (payload : List Nat) :
    Except String Bool :=
  if secret = "" then .ok true
  else
    match verify_signature payload (pyOrHeader secretHdr sigHdr) secret with
    | .error e => .error e
    | .ok true => .ok true
    | .ok false => .ok (secretHdr = some secret)

/-- The result of `json.loads` on a non-empty payload (lines 70-73).
UTF-8-decodable text that is not valid JSON raises `json.JSONDecodeError`,
which line 72 catches, yielding `{}`; payload bytes that do not decode as
UTF-8 instead raise `UnicodeDecodeError`, which `except json.JSONDecodeError`
does not catch; valid JSON that is not an object makes `data.get` raise
`AttributeError` (line 75); an object contributes its optional `action`
field.  A non-string `action` value compares unequal to `"deploy"` and
`"check"`, so it behaves as an unknown action string does. -/
inductive ParsedBody
  | invalidJson
  | undecodableBytes
  | nonDictJson
  | dict (action : Option String)
deriving DecidableEq

/-- Deriving the action (lines 70-75): an empty payload means `data = {}`
without parsing; otherwise the parse outcome decides, and
`data.get("action", "deploy")` defaults a missing field.  Only
`json.JSONDecodeError` is caught: undecodable bytes raise
`UnicodeDecodeError` and a non-object JSON body raises `AttributeError`,
both outside every `try`. -/
def deriveAction (payload : List Nat) (parsed : ParsedBody) : Except String String :=
  if payload = [] then .ok "deploy"
  else
    match parsed with
    | .invalidJson => .ok "deploy"
    | .undecodableBytes => .error "UnicodeDecodeError"
    | .nonDictJson => .error "AttributeError"
    | .dict a => .ok (a.getD "deploy")

/-- One attempted `subprocess.run` call: argument vector, timeout seconds
and working directory. -/
structure Invocation where
  args : List String
  timeoutSec : Nat
  cwd : String
deriving DecidableEq

/-- The behaviour of `subprocess.run` when invoked on the present script:
normal completion with an exit code and the captured text streams,
`TimeoutExpired`, or some other raised exception. -/
inductive RunOutcome
  | completed (returncode : Int) (stdout stderr : List Char)
  | timeoutExpired
  | raised (msg : String)
deriving DecidableEq

/-- The environment a request runs against: `os.path.exists(script_path)`
and what `subprocess.run` does if it is invoked on the present script. -/
structure ScriptEnv where
  present : Bool
  run : RunOutcome
deriving DecidableEq

/-- The configuration fixed at process start: `WEBHOOK_SECRET` and
`AUTOMEM_DIR`. -/
structure Config where
  secret : String
  automemDir : String
deriving DecidableEq

/-- `script_path = os.path.join(AUTOMEM_DIR, "scripts", "sync-and-deploy.sh")`
(lines 82 and 137). -/
def scriptPath (cfg : Config) : String :=
  cfg.automemDir ++ "/scripts/sync-and-deploy.sh"

/-- A POST request as `do_POST` consumes it: path, the two authentication
headers, the raw body bytes, and the `json.loads` view of that body. -/
structure Request where
  path : String
  secretHdr : Option String
  sigHdr : Option String
  payload : List Nat
  parsed : ParsedBody
deriving DecidableEq

/-- The HTTP responses `do_POST` can emit: the 200 success JSON and 500
error JSON of the deploy branch, the 200 `{"status":"ok"}` JSON of the
check branch, and `send_error(status, message)`. -/
inductive HttpResponse
  | deploySuccess (output : List Char)
  | deployError (error : List Char)
  | checkOk (output : List Char)
  | sendError (status : Nat) (message : String)
deriving DecidableEq

/-- The HTTP status code a response carries. -/
def HttpResponse.statusCode : HttpResponse → Nat
  | .deploySuccess _ => 200
  | .deployError _ => 500
  | .checkOk _ => 200
  | .sendError s _ => s

/-- How the handler terminates: a response written, or an exception
propagating out of `do_POST` (no response for that request). -/
inductive HandlerOutcome
  | responded (r : HttpResponse)
  | uncaught (e : String)
deriving DecidableEq

/-- The handler outcome together with the `subprocess.run` calls the
handler attempted. -/
structure HandlerResult where
  outcome : HandlerOutcome
  attempts : List Invocation
deriving DecidableEq

/-- Python `s[-n:]`: the last `n` characters (all of them when shorter). -/
def lastSlice (n : Nat) (l : List Char) : List Char := l.drop (l.length - n)

/-- The `subprocess.run` call of the deploy branch (lines 91-97):
`[script_path, "--auto"]`, `timeout=300`, `cwd=AUTOMEM_DIR`. -/
def deployInvocation (cfg : Config) : Invocation :=
  ⟨[scriptPath cfg, "--auto"], 300, cfg.automemDir⟩

/-- The `subprocess.run` call of the check branch (lines 138-144):
`[script_path, "--check"]`, `timeout=60`, `cwd=AUTOMEM_DIR`. -/
def checkInvocation (cfg : Config) : Invocation :=
  ⟨[scriptPath cfg, "--check"], 60, cfg.automemDir⟩

/-- The deploy branch (lines 80-133): existence test before invocation, and
a `try` that maps exit code 0 to the 200 success JSON with the last 1000
characters of stdout, a nonzero exit to the 500 error JSON with the last
1000 characters of stderr, `TimeoutExpired` to `send_error(504)`, and any
other exception to `send_error(500, str(e))`. -/
def deployBranch (cfg : Config) (env : ScriptEnv) : HandlerResult :=
  if env.present = false then
    ⟨.responded (.sendError 500 "Deploy script not found"), []⟩
  else
    match env.run with
    | .completed rc out err =>
        if rc = 0 then
          ⟨.responded (.deploySuccess (lastSlice 1000 out)), [deployInvocation cfg]⟩
        else
          ⟨.responded (.deployError (lastSlice 1000 err)), [deployInvocation cfg]⟩
    | .timeoutExpired =>
        ⟨.responded (.sendError 504 "Deployment timed out"), [deployInvocation cfg]⟩
    | .raised e => ⟨.responded (.sendError 500 e), [deployInvocation cfg]⟩

/-- The check branch (lines 135-148): no existence test, no exit-code test,
no truncation and no `try`, so a missing script raises `FileNotFoundError`
from `subprocess.run`, a timeout raises `TimeoutExpired`, and any other
exception also propagates; normal completion always yields the 200
`{"status":"ok"}` JSON with the full stdout. -/
def checkBranch (cfg : Config) (env : ScriptEnv) : HandlerResult :=
  if env.present = false then
    ⟨.uncaught "FileNotFoundError", [checkInvocation cfg]⟩
  else
    match env.run with
    | .completed _ out _ => ⟨.responded (.checkOk out), [checkInvocation cfg]⟩
    | .timeoutExpired => ⟨.uncaught "subprocess.TimeoutExpired", [checkInvocation cfg]⟩
    | .raised e => ⟨.uncaught e, [checkInvocation cfg]⟩

/-- `WebhookHandler.do_POST` (lines 53-151): route, authenticate (an
exception raised during authentication propagates uncaught), derive the
action, dispatch to the deploy or check branch, or reject an unknown
action with `send_error(400, ...)`. -/
def do_POST (cfg : Config) (req : Request) (env : ScriptEnv) : HandlerResult :=
  if req.path ≠ "/deploy" then ⟨.responded (.sendError 404 "Not Found"), []⟩
  else
    match authorized cfg.secret req.secretHdr req.sigHdr req.payload with
    | .error e => ⟨.uncaught e, []⟩
    | .ok false => ⟨.responded (.sendError 403 "Invalid signature"), []⟩
    | .ok true =>
        match deriveAction req.payload req.parsed with
        | .error e => ⟨.uncaught e, []⟩
        | .ok action =>
            if action = "deploy" then deployBranch cfg env
            else if action = "check" then checkBranch cfg env
            else ⟨.responded (.sendError 400 ("Unknown action: " ++ action)), []⟩

/-- Substring occurrence on character lists, used to state whether a
response message names the script path. -/
def isSubstr (pat s : List Char) : Bool :=
  (List.range (s.length + 1)).any (fun i => (s.drop i).take pat.length = pat)

/-! ## The Gemini embedding provider (`automem/embedding/gemini.py`)

Vector components are kept polymorphic over a field, and `math.sqrt` is a
parameter of the embedding operations, because Lean does not embed Python
floats; every theorem below is independent of the values `sqrt` takes. -/

/-- `_normalize_embedding` (lines 93-113): 3072-dimensional embeddings are
returned untouched; otherwise the vector is divided componentwise by the
Euclidean norm `sqrt(sum(x * x for x in embedding))` unless that norm is
zero. -/
def normalize_embedding {a : Type} [Field a] [DecidableEq a] (sqrt : a -> a)
    (dimension : Nat) (embedding : List a) : List a :=
  if dimension = 3072 then embedding
  else
    let norm := sqrt (embedding.foldl (fun acc x => acc + x * x) 0)
    if norm = 0 then embedding else embedding.map (fun x => x / norm)

/-- `generate_embedding` (lines 115-150): the first embedding of the API
result is taken (`result.embeddings[0]`, so an empty result raises
`IndexError`); a vector whose length disagrees with the configured
dimension raises `ValueError`; otherwise the vector is normalized and
returned. -/
def generate_embedding {a : Type} [Field a] [DecidableEq a] (sqrt : a -> a)
    (dimension : Nat) (apiEmbeddings : List (List a)) : Except String (List a) :=
  match apiEmbeddings with
  | [] => .error "IndexError: list index out of range"
  | e :: _ =>
      if e.length ≠ dimension then
        .error ("Gemini embedding length " ++ toString e.length ++
                " != configured dimension " ++ toString dimension)
      else .ok (normalize_embedding sqrt dimension e)

/-- The scan `next((i for i, e in enumerate(embeddings) if len(e) != self._dimension), None)`
of line 180: the first index carrying a wrong-length vector, if any. -/
def findBadIdx {a : Type} (dimension : Nat) : Nat -> List (List a) -> Option Nat
  | _, [] => none
  | i, e :: rest =>
      if e.length ≠ dimension then some i else findBadIdx dimension (i + 1) rest

/-- The observable outcome of a batch call: whether the Gemini API was
invoked, and the value returned or error raised. -/
structure BatchCall (a : Type) where
  apiCalled : Bool
  result : Except String (List (List a))

/-- `generate_embeddings_batch` (lines 152-195): an empty text list returns
`[]` before any API call; otherwise the API result is scanned for a
wrong-length vector, which raises `ValueError`, and every vector is
normalized and returned. -/
def generate_embeddings_batch {a : Type} [Field a] [DecidableEq a] (sqrt : a -> a)
    (dimension : Nat) (texts : List String) (apiEmbeddings : List (List a)) :
    BatchCall a :=
  if texts = [] then ⟨false, .ok []⟩
  else
    match findBadIdx dimension 0 apiEmbeddings with
    | some i =>
        ⟨true, .error ("Gemini batch embedding length != configured dimension at index " ++
                       toString i)⟩
    | none => ⟨true, .ok (apiEmbeddings.map (normalize_embedding sqrt dimension))⟩

end Automem

namespace Automem

/-! ## Authentication lemmas -/

/-- The expected signature string is never empty: it starts with `sha256=`. -/
theorem expectedSignature_ne_empty (secret : String) (payload : List Nat) :
    expectedSignature secret payload ≠ "" := by
  intro h
  have h2 : (expectedSignature secret payload).length = 0 := by rw [h]; rfl
  rw [expectedSignature, String.length_append] at h2
  have h7 : ("sha256=" : String).length = 7 := rfl
  omega

/-- Every hex digit of a value below 16 is an ASCII character. -/
theorem hexDigit_toNat_lt : ∀ n, n < 16 → (hexDigit n).toNat < 128 := by decide

/-- The four bytes split out of a word are below 256. -/
theorem wordToBytes_lt (w : Nat) : ∀ b ∈ wordToBytes w, b < 256 := by
  intro b hb
  rw [wordToBytes] at hb
  simp only [List.mem_cons, List.not_mem_nil, or_false] at hb
  rcases hb with rfl | rfl | rfl | rfl <;>
    exact Nat.lt_succ_of_le Nat.and_le_right

/-- SHA-256 emits genuine bytes. -/
theorem sha256_bytes_lt (msg : List Nat) : ∀ b ∈ sha256 msg, b < 256 := by
  intro b hb
  simp only [sha256, List.mem_flatten, List.mem_map] at hb
  rcases hb with ⟨s, ⟨w, _, rfl⟩, hbs⟩
  exact wordToBytes_lt w b hbs

/-- HMAC-SHA256 emits genuine bytes. -/
theorem hmacSha256_bytes_lt (key msg : List Nat) : ∀ b ∈ hmacSha256 key msg, b < 256 := by
  intro b hb
  simp only [hmacSha256] at hb
  exact sha256_bytes_lt _ b hb

/-- The hex encoding of a byte list is ASCII. -/
theorem toHex_ascii (l : List Nat) (h : ∀ b ∈ l, b < 256) :
    isAsciiStr (toHex l) = true := by
  rw [isAsciiStr, toHex]
  rw [List.all_eq_true]
  intro c hc
  simp only [List.mem_flatten, List.mem_map] at hc
  rcases hc with ⟨cs, ⟨b, hb, rfl⟩, hcs⟩
  have hblt := h b hb
  simp only [List.mem_cons, List.not_mem_nil, or_false] at hcs
  rcases hcs with rfl | rfl
  · exact decide_eq_true (hexDigit_toNat_lt _ (Nat.div_lt_of_lt_mul (by omega)))
  · exact decide_eq_true (hexDigit_toNat_lt _ (Nat.mod_lt _ (by omega)))

/-- The expected signature string is ASCII: `sha256=` followed by hex. -/
theorem expectedSignature_ascii (secret : String) (payload : List Nat) :
    isAsciiStr (expectedSignature secret payload) = true := by
  rw [expectedSignature, isAsciiStr, String.data_append, List.all_append]
  rw [Bool.and_eq_true]
  refine ⟨by decide, ?_⟩
  have h := toHex_ascii (hmacSha256 (strBytes secret) payload)
    (hmacSha256_bytes_lt (strBytes secret) payload)
  rw [isAsciiStr] at h
  exact h

/-- An ASCII presented value that is not the expected signature makes
`verify_signature` return `False`. -/
theorem verify_signature_ok_false (payload : List Nat) (sig : Option String)
    (secret : String) (hne : sig ≠ some (expectedSignature secret payload))
    (hascii : ∀ s, sig = some s → isAsciiStr s = true) :
    verify_signature payload sig secret = .ok false := by
  cases sig with
  | none => rfl
  | some s =>
      rw [verify_signature]
      by_cases hs : s = ""
      · rw [if_pos hs]
      · rw [if_neg hs, compare_digest,
            if_pos (by simp [expectedSignature_ascii, hascii s rfl])]
        have hne2 : expectedSignature secret payload ≠ s := fun he => hne (by rw [he])
        simp [hne2]

/-- The expected signature always verifies: both operands are ASCII. -/
theorem verify_signature_valid (payload : List Nat) (secret : String) :
    verify_signature payload (some (expectedSignature secret payload)) secret = .ok true := by
  rw [verify_signature, if_neg (expectedSignature_ne_empty secret payload), compare_digest,
      if_pos (by simp [expectedSignature_ascii])]
  simp

/-- A non-empty, non-ASCII presented value makes `compare_digest` raise
`TypeError` out of `verify_signature`. -/
theorem verify_signature_error (payload : List Nat) (s : String) (secret : String)
    (hs : s ≠ "") (hna : isAsciiStr s = false) :
    verify_signature payload (some s) secret = .error "TypeError" := by
  rw [verify_signature, if_neg hs, compare_digest, if_neg (by simp [hna])]

/-- A matching, ASCII `X-Webhook-Secret` header authorizes the request
whatever the signature header holds: either the value chosen on line 62
verifies, or the fallback equality of line 65 accepts. -/
theorem authorized_true_of_shared (secret : String) (secretHdr sigHdr : Option String)
    (payload : List Nat) (h : secret ≠ "") (hascii : isAsciiStr secret = true)
    (hs : secretHdr = some secret) :
    authorized secret secretHdr sigHdr payload = .ok true := by
  subst hs
  rw [authorized, if_neg h]
  have hch : pyOrHeader (some secret) sigHdr = some secret := by
    simp [pyOrHeader, h]
  rw [hch, verify_signature, if_neg h, compare_digest,
      if_pos (by simp [expectedSignature_ascii, hascii])]
  by_cases he : expectedSignature secret payload = secret
  · simp [he]
  · simp [he]

/-- With a non-empty secret, no matching shared-secret header and an ASCII
chosen header value that is not the expected signature, authorization
returns `False`. -/
theorem authorized_ok_false_of_no_proof (secret : String) (secretHdr sigHdr : Option String)
    (payload : List Nat) (h : secret ≠ "") (h1 : secretHdr ≠ some secret)
    (h2 : pyOrHeader secretHdr sigHdr ≠ some (expectedSignature secret payload))
    (h3 : ∀ s, pyOrHeader secretHdr sigHdr = some s → isAsciiStr s = true) :
    authorized secret secretHdr sigHdr payload = .ok false := by
  have hv := verify_signature_ok_false payload (pyOrHeader secretHdr sigHdr) secret h2 h3
  rw [authorized, if_neg h, hv]
  simp [h1]

/-- With a non-empty secret and a non-empty, non-ASCII chosen header value,
the `TypeError` from `compare_digest` propagates out of the
authentication block. -/
theorem authorized_error_of_nonascii (secret : String) (secretHdr sigHdr : Option String)
    (payload : List Nat) (h : secret ≠ "") (s : String)
    (hch : pyOrHeader secretHdr sigHdr = some s) (hs : s ≠ "")
    (hna : isAsciiStr s = false) :
    authorized secret secretHdr sigHdr payload = .error "TypeError" := by
  rw [authorized, if_neg h, hch, verify_signature_error payload s secret hs hna]

/-- A POST /deploy request that fails authorization is answered with
`send_error(403, "Invalid signature")` and nothing is invoked. -/
theorem do_POST_reject (cfg : Config) (req : Request) (env : ScriptEnv)
    (hp : req.path = "/deploy")
    (ha : authorized cfg.secret req.secretHdr req.sigHdr req.payload = .ok false) :
    do_POST cfg req env = ⟨.responded (.sendError 403 "Invalid signature"), []⟩ := by
  simp [do_POST, hp, ha]

/-- A POST /deploy request whose authentication raises leaves `do_POST`
with an uncaught exception and no invocation. -/
theorem do_POST_uncaught_of_auth_error (cfg : Config) (req : Request) (env : ScriptEnv)
    (e : String) (hp : req.path = "/deploy")
    (ha : authorized cfg.secret req.secretHdr req.sigHdr req.payload = .error e) :
    do_POST cfg req env = ⟨.uncaught e, []⟩ := by
  simp [do_POST, hp, ha]

/-- An authorized POST /deploy request is never answered 403. -/
theorem do_POST_no_403_of_authorized (cfg : Config) (req : Request) (env : ScriptEnv)
    (hp : req.path = "/deploy")
    (ha : authorized cfg.secret req.secretHdr req.sigHdr req.payload = .ok true) :
    (do_POST cfg req env).outcome
      ≠ .responded (.sendError 403 "Invalid signature") := by
  simp only [do_POST, hp, ha]
  rw [if_neg (by simp)]
  cases hda : deriveAction req.payload req.parsed with
  | error e => simp
  | ok a =>
      dsimp only
      by_cases h1 : a = "deploy"
      · subst h1
        rw [if_pos rfl]
        rw [deployBranch]
        by_cases hpres : env.present = false
      /- the 500, 200, 504 outcomes of the deploy branch all differ from 403 -/
        · simp [hpres]
        · simp only [if_neg hpres]
          cases env.run with
          | completed rc out err => by_cases hrc : rc = 0 <;> simp [hrc]
          | timeoutExpired => simp
          | raised e => simp
      · by_cases h2 : a = "check"
        · subst h2
          rw [if_neg (by decide), if_pos rfl]
          rw [checkBranch]
          by_cases hpres : env.present = false
          · simp [hpres]
          · simp only [if_neg hpres]
            cases env.run with
            | completed rc out err => simp
            | timeoutExpired => simp
            | raised e => simp
        · simp [h1, h2]

/-! ## Claim C1 -/

set_option maxRecDepth 1000000 in
/-- C1 counterexample: with secret `"s"` and empty body, a POST /deploy
request carrying the valid `X-Hub-Signature-256` value together with an
unrelated `X-Webhook-Secret: x` header is rejected with 403, because line 62
lets the non-empty `X-Webhook-Secret` value shadow the signature header.
This refutes the claim that a validly signed request is authorized
regardless of what other headers it carries. -/
theorem C1_counterexample :
    do_POST ⟨"s", "/opt/automem"⟩
      ⟨"/deploy", some "x", some (expectedSignature "s" []), [], .invalidJson⟩
      ⟨true, .completed 0 [] []⟩
      = ⟨.responded (.sendError 403 "Invalid signature"), []⟩ := by decide

/-- C1 (amended): for every body and non-empty secret, a request carrying
the valid `X-Hub-Signature-256` value is authorized provided the
`X-Webhook-Secret` header is absent, empty, or equal to an ASCII secret;
a request whose ASCII signature header value differs from the valid
signature of the received body, with no `X-Webhook-Secret` proof present,
is rejected 403 — in particular any single-byte change to the signature
value that keeps it ASCII, and any single-byte change to the body whose
HMAC differs from the original; a non-ASCII signature header value (a
single-byte change can set a high bit, and header values are
iso-8859-1-decoded) instead makes `hmac.compare_digest` raise `TypeError`
out of the handler, with no response at all. -/
theorem C1_signature_auth (secret : String) (payload : List Nat)
    (secretHdr sigHdr : Option String) (h : secret ≠ "") :
    ((secretHdr = none ∨ secretHdr = some "" ∨
        (secretHdr = some secret ∧ isAsciiStr secret = true)) →
      sigHdr = some (expectedSignature secret payload) →
      authorized secret secretHdr sigHdr payload = .ok true) ∧
    (∀ sig, sigHdr = some sig → sig ≠ expectedSignature secret payload →
      isAsciiStr sig = true →
      (secretHdr = none ∨ secretHdr = some "") →
      ∀ (dir : String) (parsed : ParsedBody) (env : ScriptEnv),
        do_POST ⟨secret, dir⟩ ⟨"/deploy", secretHdr, sigHdr, payload, parsed⟩ env
          = ⟨.responded (.sendError 403 "Invalid signature"), []⟩) ∧
    (∀ sig, sigHdr = some sig → sig ≠ "" → isAsciiStr sig = false →
      (secretHdr = none ∨ secretHdr = some "") →
      ∀ (dir : String) (parsed : ParsedBody) (env : ScriptEnv),
        do_POST ⟨secret, dir⟩ ⟨"/deploy", secretHdr, sigHdr, payload, parsed⟩ env
          = ⟨.uncaught "TypeError", []⟩) := by
  refine ⟨?_, ?_, ?_⟩
  · rintro (rfl | rfl | ⟨rfl, hascii⟩) rfl
    · rw [authorized, if_neg h]
      have hch : pyOrHeader none (some (expectedSignature secret payload))
          = some (expectedSignature secret payload) := rfl
      rw [hch, verify_signature_valid]
    · rw [authorized, if_neg h]
      have hch : pyOrHeader (some "") (some (expectedSignature secret payload))
          = some (expectedSignature secret payload) := by simp [pyOrHeader]
      rw [hch, verify_signature_valid]
    · exact authorized_true_of_shared _ _ _ _ h hascii rfl
  · rintro sig rfl hne hsascii hsec dir parsed env
    apply do_POST_reject _ _ _ rfl
    apply authorized_ok_false_of_no_proof _ _ _ _ h
    · rcases hsec with rfl | rfl
      · simp
      · intro he
        exact h (Option.some.inj he).symm
    · rcases hsec with rfl | rfl <;> simpa [pyOrHeader] using hne
    · rcases hsec with rfl | rfl <;>
        · intro s hch
          simp [pyOrHeader] at hch
          subst hch
          exact hsascii
  · rintro sig rfl hne hna hsec dir parsed env
    apply do_POST_uncaught_of_auth_error _ _ _ _ rfl
    rcases hsec with rfl | rfl <;>
      exact authorized_error_of_nonascii _ _ _ _ h sig rfl hne hna

/-- C1 witness: the amended theorem applied at secret `"s"`, empty body, no
shared-secret header and the valid signature header. -/
theorem C1_witness :
    authorized "s" none (some (expectedSignature "s" [])) [] = .ok true :=
  (C1_signature_auth "s" [] none (some (expectedSignature "s" []))
    (by decide)).1 (Or.inl rfl) rfl

/-! ## Claim C6 -/

/-- C6 counterexample: with the `WEBHOOK_SECRET` environment variable unset,
the configured secret is the non-empty default `automem-deploy-secret`, and
a header-less POST /deploy request is rejected with 403 rather than
authorized.  This refutes the "or unset" half of the claim. -/
theorem C6_counterexample :
    do_POST ⟨webhookSecretOf none, "/opt/automem"⟩
      ⟨"/deploy", none, none, [], .invalidJson⟩ ⟨true, .completed 0 [] []⟩
      = ⟨.responded (.sendError 403 "Invalid signature"), []⟩ := by decide

/-- C6 (amended): if the configured secret is the empty string (the
environment variable set to `""`), every POST /deploy request is authorized
regardless of its headers and body, and no request is answered 403; an
unset environment variable instead yields the non-empty default secret
`automem-deploy-secret`, so authentication is enforced. -/
theorem C6_empty_secret_open (secretHdr sigHdr : Option String) (payload : List Nat) :
    authorized (webhookSecretOf (some "")) secretHdr sigHdr payload = .ok true ∧
    webhookSecretOf none = "automem-deploy-secret" ∧
    ∀ (dir : String) (parsed : ParsedBody) (env : ScriptEnv),
      (do_POST ⟨webhookSecretOf (some ""), dir⟩
          ⟨"/deploy", secretHdr, sigHdr, payload, parsed⟩ env).outcome
        ≠ .responded (.sendError 403 "Invalid signature") := by
  refine ⟨by simp [webhookSecretOf, authorized], rfl, ?_⟩
  intro dir parsed env
  exact do_POST_no_403_of_authorized _ _ _ rfl (by simp [webhookSecretOf, authorized])

/-- C6 witness: the amended theorem applied at a header-less request with
empty body. -/
theorem C6_witness :
    authorized (webhookSecretOf (some "")) none none [] = .ok true :=
  (C6_empty_secret_open none none []).1

/-! ## Claim C7 -/

set_option maxRecDepth 1000000 in
/-- C7 counterexample: with the non-ASCII secret `é` (code point 233,
reachable since header values are iso-8859-1-decoded and the secret is an
arbitrary environment string), a POST /deploy request whose
`X-Webhook-Secret` header exactly equals the secret is not authorized: the
line-62 choice feeds the header value to `hmac.compare_digest`, which
raises `TypeError` before the line-65 fallback is reached, so `do_POST`
crashes with no response.  This refutes the claim, which asserts
authorization for every non-empty configured secret. -/
theorem C7_counterexample :
    isAsciiStr (String.mk [Char.ofNat 233]) = false ∧
    do_POST ⟨String.mk [Char.ofNat 233], "/opt/automem"⟩
      ⟨"/deploy", some (String.mk [Char.ofNat 233]), none, [], .invalidJson⟩
      ⟨true, .completed 0 [] []⟩
      = ⟨.uncaught "TypeError", []⟩ := by
  refine ⟨rfl, by decide⟩

/-- C7 (amended): with a non-empty ASCII secret, a request whose
`X-Webhook-Secret` header equals the secret is authorized whatever the
signature evidence (signature failure falls through to the shared-secret
equality of line 65); a request carrying neither a matching shared-secret
header nor the valid signature of its body in either header, all presented
values ASCII, is rejected with 403; and a non-empty, non-ASCII chosen
header value instead makes `hmac.compare_digest` raise `TypeError` out of
the handler — as does a matching `X-Webhook-Secret` header for a non-ASCII
secret. -/
theorem C7_shared_secret_auth (secret : String) (secretHdr sigHdr : Option String)
    (payload : List Nat) (h : secret ≠ "") (hascii : isAsciiStr secret = true) :
    (secretHdr = some secret → authorized secret secretHdr sigHdr payload = .ok true) ∧
    (secretHdr ≠ some secret → secretHdr ≠ some (expectedSignature secret payload) →
      sigHdr ≠ some (expectedSignature secret payload) →
      (∀ s, pyOrHeader secretHdr sigHdr = some s → isAsciiStr s = true) →
      ∀ (dir : String) (parsed : ParsedBody) (env : ScriptEnv),
        do_POST ⟨secret, dir⟩ ⟨"/deploy", secretHdr, sigHdr, payload, parsed⟩ env
          = ⟨.responded (.sendError 403 "Invalid signature"), []⟩) ∧
    (∀ s, pyOrHeader secretHdr sigHdr = some s → s ≠ "" → isAsciiStr s = false →
      ∀ (dir : String) (parsed : ParsedBody) (env : ScriptEnv),
        do_POST ⟨secret, dir⟩ ⟨"/deploy", secretHdr, sigHdr, payload, parsed⟩ env
          = ⟨.uncaught "TypeError", []⟩) := by
  refine ⟨fun hs => authorized_true_of_shared _ _ _ _ h hascii hs, ?_, ?_⟩
  · intro h1 h2 h3 h4 dir parsed env
    apply do_POST_reject _ _ _ rfl
    apply authorized_ok_false_of_no_proof _ _ _ _ h h1 _ h4
    cases secretHdr with
    | none => simpa [pyOrHeader] using h3
    | some s =>
        by_cases hs : s = ""
        · subst hs; simpa [pyOrHeader] using h3
        · simpa [pyOrHeader, hs] using h2
  · intro s hch hs hna dir parsed env
    apply do_POST_uncaught_of_auth_error _ _ _ _ rfl
    exact authorized_error_of_nonascii _ _ _ _ h s hch hs hna

/-- C7 witness: the amended theorem applied at the ASCII secret `"s"` with
a matching `X-Webhook-Secret` header and no signature header. -/
theorem C7_witness :
    authorized "s" (some "s") none [] = .ok true :=
  (C7_shared_secret_auth "s" (some "s") none [] (by decide) (by decide)).1 rfl

/-! ## Claim C2 -/

/-- C2: the check branch has no `try`, so an exception raised by
`subprocess.run` during an authorized check request propagates out of
`do_POST` and no HTTP response is emitted for that request; the deploy
branch, by contrast, converts the same exception into `send_error(500)`.
This exhibits the claimed invariant failing on the code. -/
theorem C2_check_exception_uncaught :
    do_POST ⟨"", "/opt/automem"⟩
      ⟨"/deploy", none, none, strBytes "\x7b\"action\": \"check\"\x7d",
       .dict (some "check")⟩
      ⟨true, .raised "OSError"⟩
      = ⟨.uncaught "OSError", [checkInvocation ⟨"", "/opt/automem"⟩]⟩ ∧
    do_POST ⟨"", "/opt/automem"⟩ ⟨"/deploy", none, none, [], .invalidJson⟩
      ⟨true, .raised "OSError"⟩
      = ⟨.responded (.sendError 500 "OSError"),
         [deployInvocation ⟨"", "/opt/automem"⟩]⟩ :=
  ⟨rfl, rfl⟩

/-! ## Claim C3 -/

/-- C3 counterexample: an authorized check request whose script exits with
code 1 after printing 1500 characters is answered 200 `{"status":"ok"}`
with the full, untruncated stdout — not a 500 failure response with a
truncated stderr tail.  This refutes the claim for the check action. -/
theorem C3_counterexample :
    do_POST ⟨"", "/opt/automem"⟩
      ⟨"/deploy", none, none, strBytes "\x7b\"action\": \"check\"\x7d",
       .dict (some "check")⟩
      ⟨true, .completed 1 (List.replicate 1500 'a') "boom".data⟩
      = ⟨.responded (.checkOk (List.replicate 1500 'a')),
         [checkInvocation ⟨"", "/opt/automem"⟩]⟩ ∧
    (HttpResponse.checkOk (List.replicate 1500 'a')).statusCode = 200 ∧
    (List.replicate 1500 'a').length = 1500 := by
  refine ⟨rfl, rfl, by rw [List.length_replicate]⟩

/-- C3 (amended): for an authorized deploy request whose invocation
completes, exit code 0 yields the 200 success response with `output` the
last 1000 characters of stdout, and a nonzero exit yields the 500 error
response with the last 1000 characters of stderr; an authorized check
request that completes is always answered 200 `{"status":"ok"}` with the
full stdout, regardless of the exit code and untruncated.  The truncated
slice has length `min 1000 (length stdout)`. -/
theorem C3_output_mapping (cfg : Config) (req : Request) (rc : Int) (out err : List Char)
    (ha : authorized cfg.secret req.secretHdr req.sigHdr req.payload = .ok true)
    (hp : req.path = "/deploy") :
    (deriveAction req.payload req.parsed = .ok "deploy" →
      do_POST cfg req ⟨true, .completed rc out err⟩ =
        if rc = 0 then
          ⟨.responded (.deploySuccess (lastSlice 1000 out)), [deployInvocation cfg]⟩
        else
          ⟨.responded (.deployError (lastSlice 1000 err)), [deployInvocation cfg]⟩) ∧
    (deriveAction req.payload req.parsed = .ok "check" →
      do_POST cfg req ⟨true, .completed rc out err⟩ =
        ⟨.responded (.checkOk out), [checkInvocation cfg]⟩) ∧
    (lastSlice 1000 out).length = min 1000 out.length := by
  refine ⟨fun hda => ?_, fun hda => ?_, ?_⟩
  · simp [do_POST, hp, ha, hda, deployBranch]
  · simp [do_POST, hp, ha, hda, checkBranch]
  · simp only [lastSlice, List.length_drop]
    omega

/-- C3 witness: the amended theorem applied at an authorized deploy request
with exit code 0 and one character of stdout. -/
theorem C3_witness :
    do_POST ⟨"", "/opt/automem"⟩ ⟨"/deploy", none, none, [], .invalidJson⟩
      ⟨true, .completed 0 ['a'] []⟩
      = ⟨.responded (.deploySuccess (lastSlice 1000 ['a'])),
         [deployInvocation ⟨"", "/opt/automem"⟩]⟩ := by
  have h := (C3_output_mapping ⟨"", "/opt/automem"⟩
    ⟨"/deploy", none, none, [], .invalidJson⟩ 0 ['a'] [] rfl rfl).1 rfl
  simpa using h

/-! ## Claim C4 -/

/-- C4: an authorized check request whose invocation exceeds its 60-second
timeout makes `subprocess.run` raise `TimeoutExpired` outside any `try`, so
the exception propagates out of `do_POST` and no 504 response is emitted;
the deploy branch, with the same timeout expiry, does answer
`send_error(504, "Deployment timed out")` with no partial output.  This
exhibits the claim failing on the check action. -/
theorem C4_timeout_behaviour :
    do_POST ⟨"", "/opt/automem"⟩
      ⟨"/deploy", none, none, strBytes "\x7b\"action\": \"check\"\x7d",
       .dict (some "check")⟩
      ⟨true, .timeoutExpired⟩
      = ⟨.uncaught "subprocess.TimeoutExpired", [checkInvocation ⟨"", "/opt/automem"⟩]⟩ ∧
    do_POST ⟨"", "/opt/automem"⟩ ⟨"/deploy", none, none, [], .invalidJson⟩
      ⟨true, .timeoutExpired⟩
      = ⟨.responded (.sendError 504 "Deployment timed out"),
         [deployInvocation ⟨"", "/opt/automem"⟩]⟩ :=
  ⟨rfl, rfl⟩

/-! ## Claim C5 -/

/-- C5 counterexample: an authorized deploy request with the script absent
is answered 500 with the fixed message `Deploy script not found`, which
does not contain the missing path `/opt/automem/scripts/sync-and-deploy.sh`
as a substring.  This refutes the "message naming the missing path" part
of the claim (the path goes to the log only). -/
theorem C5_counterexample :
    do_POST ⟨"", "/opt/automem"⟩ ⟨"/deploy", none, none, [], .invalidJson⟩
      ⟨false, .completed 0 [] []⟩
      = ⟨.responded (.sendError 500 "Deploy script not found"), []⟩ ∧
    isSubstr (scriptPath ⟨"", "/opt/automem"⟩).data "Deploy script not found".data
      = false :=
  ⟨rfl, by decide⟩

/-- C5 (amended): for an authorized deploy request with the script path
absent, the handler responds 500 with the fixed message
`Deploy script not found` — the path is logged, not included in the
response — and `subprocess.run` is never called; for an authorized check
request there is no existence test, `subprocess.run` is attempted anyway,
and the resulting `FileNotFoundError` propagates out of the handler. -/
theorem C5_missing_script (cfg : Config) (req : Request) (env : ScriptEnv)
    (ha : authorized cfg.secret req.secretHdr req.sigHdr req.payload = .ok true)
    (hp : req.path = "/deploy") (hmiss : env.present = false) :
    (deriveAction req.payload req.parsed = .ok "deploy" →
      do_POST cfg req env = ⟨.responded (.sendError 500 "Deploy script not found"), []⟩) ∧
    (deriveAction req.payload req.parsed = .ok "check" →
      do_POST cfg req env = ⟨.uncaught "FileNotFoundError", [checkInvocation cfg]⟩) := by
  refine ⟨fun hda => ?_, fun hda => ?_⟩
  · simp [do_POST, hp, ha, hda, deployBranch, hmiss]
  · simp [do_POST, hp, ha, hda, checkBranch, hmiss]

/-- C5 witness: the amended theorem applied at an authorized deploy request
against a missing script. -/
theorem C5_witness :
    do_POST ⟨"", "/opt/automem"⟩ ⟨"/deploy", none, none, [], .invalidJson⟩
      ⟨false, .completed 0 [] []⟩
      = ⟨.responded (.sendError 500 "Deploy script not found"), []⟩ :=
  (C5_missing_script ⟨"", "/opt/automem"⟩ ⟨"/deploy", none, none, [], .invalidJson⟩
    ⟨false, .completed 0 [] []⟩ rfl rfl rfl).1 rfl

/-! ## Claim C8 -/

/-- C8 counterexample: an authorized POST /deploy request whose body is the
single byte `0x80` — not JSON, and not decodable as UTF-8 — crashes
`do_POST` with an uncaught `UnicodeDecodeError` (line 72 catches only
`json.JSONDecodeError`) and invokes nothing.  This refutes the claim that
a non-JSON body defaults to the deploy action and invokes the script with
`--auto`. -/
theorem C8_counterexample :
    do_POST ⟨"", "/opt/automem"⟩
      ⟨"/deploy", none, none, [128], .undecodableBytes⟩
      ⟨true, .completed 0 [] []⟩
      = ⟨.uncaught "UnicodeDecodeError", []⟩ := by decide

/-- C8 (amended): for an authorized POST /deploy request with the script
present, a body parsing to `{"action": "check"}` leads to one invocation
`[script_path, "--check"]` with a 60-second timeout; an empty body, a
UTF-8-decodable non-JSON body (`json.JSONDecodeError`, caught), or a JSON
object without an `action` field defaults to deploy, leading to one
invocation `[script_path, "--auto"]` with a 300-second timeout; a body
whose bytes do not decode as UTF-8 raises `UnicodeDecodeError` out of the
handler with no invocation; any other action value is answered
`send_error(400, "Unknown action: ...")` with no invocation. -/
theorem C8_action_dispatch (cfg : Config) (secretHdr sigHdr : Option String)
    (payload : List Nat) (parsed : ParsedBody) (env : ScriptEnv)
    (ha : authorized cfg.secret secretHdr sigHdr payload = .ok true)
    (hpresent : env.present = true) :
    (payload = [] ∨ parsed = .invalidJson ∨ parsed = .dict none →
      (do_POST cfg ⟨"/deploy", secretHdr, sigHdr, payload, parsed⟩ env).attempts
        = [⟨[scriptPath cfg, "--auto"], 300, cfg.automemDir⟩]) ∧
    (payload ≠ [] → parsed = .dict (some "check") →
      (do_POST cfg ⟨"/deploy", secretHdr, sigHdr, payload, parsed⟩ env).attempts
        = [⟨[scriptPath cfg, "--check"], 60, cfg.automemDir⟩]) ∧
    (∀ a, payload ≠ [] → parsed = .dict (some a) → a ≠ "deploy" → a ≠ "check" →
      do_POST cfg ⟨"/deploy", secretHdr, sigHdr, payload, parsed⟩ env
        = ⟨.responded (.sendError 400 ("Unknown action: " ++ a)), []⟩) ∧
    (payload ≠ [] → parsed = .undecodableBytes →
      do_POST cfg ⟨"/deploy", secretHdr, sigHdr, payload, parsed⟩ env
        = ⟨.uncaught "UnicodeDecodeError", []⟩) := by
  have hderiv : ∀ hda : deriveAction payload parsed = .ok "deploy",
      (do_POST cfg ⟨"/deploy", secretHdr, sigHdr, payload, parsed⟩ env).attempts
        = [⟨[scriptPath cfg, "--auto"], 300, cfg.automemDir⟩] := by
    intro hda
    have : (do_POST cfg ⟨"/deploy", secretHdr, sigHdr, payload, parsed⟩ env)
        = deployBranch cfg env := by
      simp [do_POST, ha, hda]
    rw [this, deployBranch, if_neg (by simp [hpresent])]
    cases env.run with
    | completed rc out err =>
        by_cases hrc : rc = 0 <;> simp [hrc, deployInvocation]
    | timeoutExpired => simp [deployInvocation]
    | raised e => simp [deployInvocation]
  refine ⟨fun hcase => ?_, fun hpl hparsed => ?_, fun a hpl hparsed h1 h2 => ?_,
    fun hpl hparsed => ?_⟩
  · apply hderiv
    rcases hcase with rfl | rfl | rfl
    · simp [deriveAction]
    · by_cases hpl : payload = [] <;> simp [deriveAction, hpl]
    · by_cases hpl : payload = [] <;> simp [deriveAction, hpl]
  · have hda : deriveAction payload parsed = .ok "check" := by
      simp [deriveAction, hpl, hparsed]
    have : (do_POST cfg ⟨"/deploy", secretHdr, sigHdr, payload, parsed⟩ env)
        = checkBranch cfg env := by
      simp [do_POST, ha, hda]
    rw [this, checkBranch, if_neg (by simp [hpresent])]
    cases env.run with
    | completed rc out err => simp [checkInvocation]
    | timeoutExpired => simp [checkInvocation]
    | raised e => simp [checkInvocation]
  · have hda : deriveAction payload parsed = .ok a := by
      simp [deriveAction, hpl, hparsed]
    simp [do_POST, ha, hda, h1, h2]
  · have hda : deriveAction payload parsed = .error "UnicodeDecodeError" := by
      simp [deriveAction, hpl, hparsed]
    simp [do_POST, ha, hda]

/-- C8 witness: the theorem applied at an authorized request with empty
body: the deploy default fires with the `--auto` invocation. -/
theorem C8_witness :
    (do_POST ⟨"", "/opt/automem"⟩ ⟨"/deploy", none, none, [], .invalidJson⟩
        ⟨true, .completed 0 [] []⟩).attempts
      = [⟨[scriptPath ⟨"", "/opt/automem"⟩, "--auto"], 300, "/opt/automem"⟩] :=
  (C8_action_dispatch ⟨"", "/opt/automem"⟩ none none [] .invalidJson
    ⟨true, .completed 0 [] []⟩ rfl rfl).1 (Or.inl rfl)

/-! ## Embedding lemmas -/

/-- Normalization preserves the vector length in all three of its cases. -/
theorem normalize_embedding_length {a : Type} [Field a] [DecidableEq a]
    (sqrt : a -> a) (dimension : Nat) (embedding : List a) :
    (normalize_embedding sqrt dimension embedding).length = embedding.length := by
  rw [normalize_embedding]
  by_cases h1 : dimension = 3072
  · rw [if_pos h1]
  · rw [if_neg h1]
    dsimp only
    by_cases h2 : sqrt (embedding.foldl (fun acc x => acc + x * x) 0) = 0
    · rw [if_pos h2]
    · rw [if_neg h2, List.length_map]

/-- When the wrong-length scan comes back empty, every vector has the
configured length. -/
theorem findBadIdx_none_all {a : Type} (dimension : Nat) :
    ∀ (i : Nat) (l : List (List a)), findBadIdx dimension i l = none →
      ∀ e ∈ l, e.length = dimension := by
  intro i l
  induction l generalizing i with
  | nil => intro _ e he; cases he
  | cons x xs ih =>
      intro h e he
      rw [findBadIdx] at h
      by_cases hx : x.length = dimension
      · rcases List.mem_cons.mp he with rfl | hmem
        · exact hx
        · exact ih (i + 1) (by simpa [hx] using h) e hmem
      · simp [hx] at h

/-! ## Claim C9 -/

/-- C9: every vector returned by `generate_embedding` or by
`generate_embeddings_batch` has exactly the configured number of
components, and whenever the underlying API returns a vector whose length
disagrees with the configured dimensionality, the call raises an error
instead of returning it. -/
theorem C9_dimension_contract {a : Type} [Field a] [DecidableEq a] (sqrt : a -> a)
    (dimension : Nat) (texts : List String) (apiEmbeddings : List (List a)) :
    (∀ v, generate_embedding sqrt dimension apiEmbeddings = .ok v →
      v.length = dimension) ∧
    (∀ vs, (generate_embeddings_batch sqrt dimension texts apiEmbeddings).result = .ok vs →
      ∀ v ∈ vs, v.length = dimension) ∧
    (∀ e rest, apiEmbeddings = e :: rest → e.length ≠ dimension →
      ∃ msg, generate_embedding sqrt dimension apiEmbeddings = .error msg) ∧
    (texts ≠ [] → (∃ e ∈ apiEmbeddings, e.length ≠ dimension) →
      ∃ msg, (generate_embeddings_batch sqrt dimension texts apiEmbeddings).result
        = .error msg) := by
  refine ⟨?_, ?_, ?_, ?_⟩
  · intro v hv
    cases apiEmbeddings with
    | nil => simp [generate_embedding] at hv
    | cons e rest =>
        rw [generate_embedding] at hv
        by_cases hlen : e.length = dimension
        · rw [if_neg (by simpa using hlen)] at hv
          cases hv
          rw [normalize_embedding_length]
          exact hlen
        · rw [if_pos (by simpa using hlen)] at hv
          cases hv
  · intro vs hvs v hv
    by_cases ht : texts = []
    · rw [generate_embeddings_batch, if_pos ht] at hvs
      cases hvs
      cases hv
    · rw [generate_embeddings_batch, if_neg ht] at hvs
      cases hbad : findBadIdx dimension 0 apiEmbeddings with
      | some i => rw [hbad] at hvs; cases hvs
      | none =>
          rw [hbad] at hvs
          cases hvs
          rcases List.mem_map.mp hv with ⟨e, hmem, rfl⟩
          rw [normalize_embedding_length]
          exact findBadIdx_none_all dimension 0 apiEmbeddings hbad e hmem
  · rintro e rest rfl hlen
    exact ⟨_, by rw [generate_embedding, if_pos (by simpa using hlen)]⟩
  · intro ht hbadvec
    rw [generate_embeddings_batch, if_neg ht]
    cases hbad : findBadIdx dimension 0 apiEmbeddings with
    | some i => exact ⟨_, rfl⟩
    | none =>
        rcases hbadvec with ⟨e, hmem, hlen⟩
        exact absurd (findBadIdx_none_all dimension 0 apiEmbeddings hbad e hmem) hlen

/-- C9 witness: the theorem applied over the rationals at dimension 2,
with the API returning one vector of length 1 — the call errors. -/
theorem C9_witness :
    ∃ msg, generate_embedding (fun q : ℚ => q) 2 [[(1 : ℚ)]] = .error msg :=
  (C9_dimension_contract (fun q : ℚ => q) 2 ["text"] [[(1 : ℚ)]]).2.2.1
    [(1 : ℚ)] [] rfl (by decide)

/-! ## Claim C10 -/

/-- C10: `generate_embeddings_batch` on the empty text list returns the
empty list with no API call, whatever the API would have returned. -/
theorem C10_empty_batch {a : Type} [Field a] [DecidableEq a] (sqrt : a -> a)
    (dimension : Nat) (apiEmbeddings : List (List a)) :
    generate_embeddings_batch sqrt dimension [] apiEmbeddings
      = ⟨false, .ok []⟩ := by
  rw [generate_embeddings_batch, if_pos rfl]

/-- C10 witness: the theorem applied over the rationals at dimension 768
with a non-empty pending API answer. -/
theorem C10_witness :
    generate_embeddings_batch (fun q : ℚ => q) 768 [] [[(1 : ℚ)]]
      = ⟨false, .ok []⟩ :=
  C10_empty_batch (fun q : ℚ => q) 768 [[(1 : ℚ)]]

end Automem